import Mathlib

/-!
Verification of the scheduling, delivery and retention core of the
autocontenuelisabot repository (src/autocontenuelisabot/bot.py and
src/autocontenuelisabot/database/__init__.py), as a shallow embedding.

Modelling conventions:
- Time is wall-clock seconds as an `Int` (the configured time zone is a
  fixed offset; Python `%` and `//` on ints are floor-based, which for the
  positive divisors used here coincide with Lean's `Int.emod` / `Int.ediv`).
- Python `datetime.weekday()` (Monday = 0) is `pyWeekday`; the Unix epoch
  1970-01-01 was a Thursday, hence the `+ 3`.
- SQLite tables are lists of row structures; `AUTOINCREMENT` ids are
  modelled by a `nextId` counter in `LedgerState`.
- Python string operations are re-implemented structurally (so that
  concrete inputs evaluate by `decide`): `pyLower`, `pyStartsWith`,
  `pyIsDigitStr`, `pyLstripDash`, `pyToNat?`, `pyStem` mirror
  `str.lower`, `str.startswith`, `str.isdigit`, `str.lstrip("-")`,
  `int(...)` on digit strings and `path.rsplit(".", 1)[0]`.
- The network, the filesystem and the Telegram client are oracles: an
  `Env` value fixes the outcome of `get_chat`, of the media download, of
  the image/video conversions and of the send call for one delivery, and
  the embedding threads an explicit filesystem (a list of existing paths)
  and explicit call counters through the computation.
-/

/-- Python-style lowercase of one ASCII character (`str.lower`). -/
def lowerChar (c : Char) : Char :=
  if c.isUpper then Char.ofNat (c.toNat + 32) else c

/-- Python `s.lower()` restricted to ASCII, structurally computable. -/
def pyLower (s : String) : String := ⟨s.data.map lowerChar⟩

/-- Boolean list-prefix test, structural recursion. -/
def listStarts : List Char → List Char → Bool
  | [], _ => true
  | _ :: _, [] => false
  | a :: as, b :: bs => a == b && listStarts as bs

/-- Python `s.startswith(p)`. -/
def pyStartsWith (s p : String) : Bool := listStarts p.data s.data

/-- Python `s.isdigit()` (ASCII digits; nonempty). -/
def pyIsDigitStr (s : String) : Bool := !s.data.isEmpty && s.data.all Char.isDigit

/-- Python `s.lstrip("-")`. -/
def pyLstripDash (s : String) : String := ⟨s.data.dropWhile (fun c => c == '-')⟩

/-- Parse a nonempty all-digit string to a natural number, as Python `int` does
on such strings; `none` otherwise. -/
def pyToNat? (s : String) : Option Nat :=
  if pyIsDigitStr s then
    some (s.data.foldl (fun n c => n * 10 + (c.toNat - 48)) 0)
  else none

/-- Python `int(s)` for optionally `-`-signed digit strings; `none` when the
parse raises `ValueError`. -/
def pyIntOfString? (s : String) : Option Int :=
  match pyToNat? s with
  | some n => some (n : Int)
  | none =>
    if pyStartsWith s "-" then
      match pyToNat? ⟨s.data.drop 1⟩ with
      | some n => some (-(n : Int))
      | none => none
    else none

/-- Characters before the last dot of the list, the whole list when it has no
dot: the list form of Python `p.rsplit(".", 1)[0]`. -/
def stemList (l : List Char) : List Char :=
  if '.' ∈ l then ((l.reverse.dropWhile (fun c => c ≠ '.')).drop 1).reverse else l

/-- Python `path.rsplit(".", 1)[0]`, used by the conversion helpers to build
output file names. -/
def pyStem (s : String) : String := ⟨stemList s.data⟩

/-- POSIX `os.path.isabs`. -/
def pyIsAbs (p : String) : Bool := pyStartsWith p "/"

/-- The URL test of `_download_if_url`: `s.startswith(("http://", "https://"))`. -/
def isHttpUrl (s : String) : Bool := pyStartsWith s "http://" || pyStartsWith s "https://"

/-- Python `a or b` for an optional string `a` (both `None` and `""` are falsy). -/
def pyOrStr (a : Option String) (b : String) : String :=
  match a with
  | none => b
  | some s => if s = "" then b else s

/-- Row of the `deletions` SQLite table created by `db_init`: columns
`id INTEGER PRIMARY KEY AUTOINCREMENT`, `chat_id`, `message_id`, `delete_at`. -/
structure DelRow where
  id : Nat
  chat_id : Int
  message_id : Nat
  delete_at : Int
deriving DecidableEq, Repr

/-- The deletions table together with the next `AUTOINCREMENT` id. -/
structure LedgerState where
  rows : List DelRow
  nextId : Nat
deriving DecidableEq, Repr

/-- Source `db_schedule_deletion(chat_id, message_id, delete_at_ts)`: a durable
`INSERT INTO deletions (chat_id, message_id, delete_at) VALUES (?, ?, ?)`. -/
def db_schedule_deletion (st : LedgerState) (chat_id : Int) (message_id : Nat)
    (delete_at : Int) : LedgerState :=
  ⟨st.rows ++ [⟨st.nextId, chat_id, message_id, delete_at⟩], st.nextId + 1⟩

/-- Ordering used by `ORDER BY id ASC`. -/
def rowIdLe (a b : DelRow) : Prop := a.id ≤ b.id

instance : DecidableRel rowIdLe := fun a b => Nat.decLe a.id b.id

instance : IsTotal DelRow rowIdLe := ⟨fun a b => Nat.le_total a.id b.id⟩

instance : IsTrans DelRow rowIdLe := ⟨fun _ _ _ hab hbc => Nat.le_trans hab hbc⟩

/-- Source `db_fetch_due_deletions(now_ts, limit)`: `SELECT id, chat_id,
message_id FROM deletions WHERE delete_at <= ? ORDER BY id ASC LIMIT ?`. -/
def db_fetch_due_deletions (rows : List DelRow) (now_ts : Int) (limit : Nat) :
    List DelRow :=
  (((rows.filter (fun r => decide (r.delete_at ≤ now_ts))).insertionSort rowIdLe).take limit)

/-- Source `db_delete_deletion_row(row_id)`: `DELETE FROM deletions WHERE id=?`. -/
def db_delete_deletion_row (rows : List DelRow) (row_id : Nat) : List DelRow :=
  rows.filter (fun r => decide (r.id ≠ row_id))

/-- Python `datetime.weekday()` (Monday = 0) on wall-clock seconds. -/
def pyWeekday (t : Int) : Int := (t / 86400 + 3) % 7

/-- Source `_seconds_until_next_weekly(weekday_idx, hour, minute, tz_str)`:
`days_ahead = (weekday_idx - now.weekday()) % 7`, `target` is `now` shifted by
`days_ahead` days with the time of day replaced by `hour:minute:00`, rolled
forward 7 days when `target <= now`; returns `(target - now).total_seconds()`.
The fixed time zone is the wall clock the `Int` counts seconds in. -/
def _seconds_until_next_weekly (weekday_idx hour minute : Int) (now : Int) : Int :=
  let days_ahead := (weekday_idx - pyWeekday now) % 7
  let shifted := now + days_ahead * 86400
  let target0 := (shifted / 86400) * 86400 + hour * 3600 + minute * 60
  let target := if target0 ≤ now then target0 + 7 * 86400 else target0
  target - now

/-- Truthiness of the Python `if mid:` test on an `Optional[int]`. -/
def pyTruthyNat : Option Nat → Bool
  | none => false
  | some n => n != 0

/-- Per-channel post-delivery bookkeeping shared by `_autopost_worker` (bot.py
lines 740-746) and `force_post_index_handler` (lines 786-792): given the
message id returned by `_send_autopost_to_chat` and the result of the second
`_resolve_chat_id` call, insert the deletion row `(chat_id, mid, now +
AUTO_DELETE_AFTER_DAYS days)` when both are available; returns the new ledger
and the `sent` increment. -/
def autopost_channel_step (mid : Option Nat) (resolved : Option Int)
    (now_ts : Int) (retention_days : Int) (st : LedgerState) : LedgerState × Nat :=
  match mid with
  | some m =>
    if m ≠ 0 then
      let delete_at := now_ts + retention_days * 86400
      match resolved with
      | some cid => (db_schedule_deletion st cid m delete_at, 1)
      | none => (st, 1)
    else (st, 0)
  | none => (st, 0)

/-- Chat reference as accepted by `_resolve_chat_id`: a numeric id or a string
(numeric string or `@username`). -/
inductive ChatRef where
  | byId (i : Int)
  | byName (s : String)
deriving DecidableEq, Repr

/-- The exception classes caught around the dispatch in
`_send_autopost_to_chat`: `ChatAdminRequired`, `BadRequest`, `RPCError` and
the final generic `Exception` handler. -/
inductive SendErr where
  | chatAdminRequired
  | badRequest
  | rpcError
  | unexpected
deriving DecidableEq, Repr

/-- Outcome oracle for one `_download_if_url` call on a URL: either the
request raises (caught, yielding `None` with no file created), or a body of
`size` bytes is written to the fresh `mkstemp` path `tmp`. -/
inductive Download where
  | fetchErr
  | fetched (tmp : String) (size : Nat)
deriving DecidableEq, Repr

/-- Outcome oracle for `_convert_image_if_needed`: return the path unchanged
(unproblematic format, unreadable format, or any internal exception), convert
a problematic format to `stem + ".jpg"`, or clamp an oversized image to
`stem + "_tg.jpg"`. -/
inductive ImgConv where
  | keep
  | convertJpg
  | clampJpg
deriving DecidableEq, Repr

/-- Outcome oracle for `_convert_video_if_needed`: ffmpeg absent (path
unchanged), transcode to `stem + "_tg.mp4"`, or ffmpeg failure (path
unchanged). -/
inductive VidConv where
  | noFfmpeg
  | transcoded
  | ffmpegFail
deriving DecidableEq, Repr

/-- Environment fixing every external outcome of one delivery attempt:
`get_chat` lookups, the media download, the two converters and the Telegram
send call (`Except.error` models a raised exception). -/
structure Env where
  getChat : String → Option Int
  dl : Download
  img : ImgConv
  vid : VidConv
  send : Except SendErr Nat

/-- Content item configuration as read from a `MESSAGES` entry by
`_send_autopost_to_chat`: `post_cfg.get("type")`, `post_cfg.get("media")`,
`post_cfg.get("text")` and `post_cfg.get("buttons")`. -/
structure PostCfg where
  ptype : Option String
  media : Option String
  text : Option String
  buttons : List (String × String)
deriving Repr

/-- Source `_download_if_url(maybe_url)`: `None` stays `None` (and `""` is
falsy at the caller), a non-URL string is returned unchanged, and a URL is
downloaded to a `mkstemp` file — which is abandoned, not removed, when the
body is under 1024 bytes. Returns the result together with the list of files
created on disk. -/
def _download_if_url (media : Option String) (dl : Download) :
    Option String × List String :=
  match media with
  | none => (none, [])
  | some s =>
    if s = "" then (none, [])
    else if !(isHttpUrl s) then (some s, [])
    else
      match dl with
      | .fetchErr => (none, [])
      | .fetched tmp size => if size < 1024 then (none, [tmp]) else (some tmp, [tmp])

/-- Source `_convert_image_if_needed(path)`: returns the resulting path and
the list of files it created. -/
def _convert_image_if_needed (c : ImgConv) (path : String) : String × List String :=
  match c with
  | .keep => (path, [])
  | .convertJpg => (pyStem path ++ ".jpg", [pyStem path ++ ".jpg"])
  | .clampJpg => (pyStem path ++ "_tg.jpg", [pyStem path ++ "_tg.jpg"])

/-- Source `_convert_video_if_needed(path)`: returns the resulting path and
the list of files it created. -/
def _convert_video_if_needed (c : VidConv) (path : String) : String × List String :=
  match c with
  | .noFfmpeg => (path, [])
  | .transcoded => (pyStem path ++ "_tg.mp4", [pyStem path ++ "_tg.mp4"])
  | .ffmpegFail => (path, [])

/-- Source `_resolve_chat_id(chat_ref)`: a plain int is cast, a non-digit
string goes through `app_1.get_chat` (one client call; any exception is
caught and yields `None`), a digit string is parsed by `int(...)` (a parse
error is caught and yields `None`). Returns the result and the number of
`get_chat` client calls made. -/
def _resolve_chat_id (env : Env) : ChatRef → Option Int × Nat
  | .byId i => (some i, 0)
  | .byName s =>
    if !pyIsDigitStr (pyLstripDash s) then
      match env.getChat s with
      | some cid => (some cid, 1)
      | none => (none, 1)
    else
      match pyIntOfString? s with
      | some v => (some v, 0)
      | none => (none, 0)

/-- The media-bearing post types of `_send_autopost_to_chat`. -/
def mediaKinds : List String := ["photo", "video", "voice", "document"]

/-- Add freshly created files to the filesystem (creation of an existing path
overwrites it, leaving the set of paths unchanged). -/
def fsCreate (fs : List String) (ps : List String) : List String :=
  ps.foldl (fun acc p => if p ∈ acc then acc else acc ++ [p]) fs

/-- Effect of `os.remove(p)` on the set of existing paths. -/
def osRemove (fs : List String) (p : String) : List String :=
  fs.filter (fun q => decide (q ≠ p))

/-- One iteration of the `finally` cleanup loop `for p in (conv_path,
temp_path): if p and os.path.exists(p): os.remove(p)`: returns the filesystem
after the step and the list of paths actually removed. -/
def cleanupOne (fs : List String) : Option String → List String × List String
  | none => (fs, [])
  | some p => if p ≠ "" ∧ p ∈ fs then (osRemove fs p, [p]) else (fs, [])

/-- The dispatch `await app_1.send_*(...)` of `_send_autopost_to_chat`: one
client call, returning the new message id or (a caught exception and) `None`. -/
def dispatch (send : Except SendErr Nat) : Option Nat × Nat :=
  match send with
  | .ok m => (some m, 1)
  | .error _ => (none, 1)

/-- Observable outcome of one `_send_autopost_to_chat` call: the returned
message id, the final filesystem, the files created and removed during the
attempt, and how many `get_chat` and `send_*` client calls were made. -/
structure SendOutcome where
  messageId : Option Nat
  fs : List String
  created : List String
  removed : List String
  getChatCalls : Nat
  sendCalls : Nat
deriving DecidableEq, Repr

/-- Source `_send_autopost_to_chat(chat_ref, post_cfg)` (bot.py lines
658-722): resolve the chat (abort on failure); for media kinds download the
media (abort on `None`), remember an absolute media path as `temp_path`,
convert photo/video media into `conv_path`; dispatch by type, catching every
exception; in the `finally` block remove `conv_path` then `temp_path` when
set and existing. -/
def _send_autopost_to_chat (env : Env) (chat_ref : ChatRef) (post : PostCfg)
    (fs0 : List String) : SendOutcome :=
  let ptype := pyLower (pyOrStr post.ptype "text")
  let res := _resolve_chat_id env chat_ref
  match res.1 with
  | none => ⟨none, fs0, [], [], res.2, 0⟩
  | some _ =>
    if ptype ∈ mediaKinds then
      let dlres := _download_if_url post.media env.dl
      let fs1 := fsCreate fs0 dlres.2
      match dlres.1 with
      | none => ⟨none, fs1, dlres.2, [], res.2, 0⟩
      | some mp0 =>
        let temp_path : Option String := if pyIsAbs mp0 then some mp0 else none
        let conv : Option String × List String :=
          if ptype = "photo" then
            let c := _convert_image_if_needed env.img mp0
            (some c.1, c.2)
          else if ptype = "video" then
            let c := _convert_video_if_needed env.vid mp0
            (some c.1, c.2)
          else (none, [])
        let fs2 := fsCreate fs1 conv.2
        let d := dispatch env.send
        let c1 := cleanupOne fs2 conv.1
        let c2 := cleanupOne c1.1 temp_path
        ⟨d.1, c2.1, dlres.2 ++ conv.2, c1.2 ++ c2.2, res.2, d.2⟩
    else
      let d := dispatch env.send
      ⟨d.1, fs0, [], [], res.2, d.2⟩

/-- One event of the retention reaper loop body: a `delete_messages` attempt
(with its outcome) or a ledger row removal. -/
inductive ReapEvent where
  | attempt (chat_id : Int) (message_id : Nat) (ok : Bool)
  | removeRow (row_id : Nat)
deriving DecidableEq, Repr

/-- Body of the per-row loop of `_autodelete_worker`: `try` one
`delete_messages` call (any exception is caught and only logged) and
`finally` delete the ledger row. -/
def reapStep (outcome : Nat → Bool) (st : List DelRow × List ReapEvent)
    (r : DelRow) : List DelRow × List ReapEvent :=
  (db_delete_deletion_row st.1 r.id,
    st.2 ++ [ReapEvent.attempt r.chat_id r.message_id (outcome r.id),
      ReapEvent.removeRow r.id])

/-- One poll iteration of `_autodelete_worker` (bot.py lines 755-767): fetch
up to 200 due rows and run `reapStep` on each. `outcome` is the oracle for
whether the retraction of a given row id succeeds; returns the final table
and the event trace. -/
def autodelete_iteration (outcome : Nat → Bool) (rows : List DelRow)
    (now_ts : Int) : List DelRow × List ReapEvent :=
  (db_fetch_due_deletions rows now_ts 200).foldl (reapStep outcome) (rows, [])

/-- Row of the `users` table of database/__init__.py (the surrogate primary
key is left implicit; rows are listed in insertion order). -/
structure UserRow where
  user_id : Int
  first_name : String
  username : Option String
deriving DecidableEq, Repr

/-- Source `User.add_user_to_db(user_id, first_name, username)`: query the
first row with this `user_id`; only when none exists, add and commit a new
row. -/
def add_user_to_db (tbl : List UserRow) (user_id : Int) (first_name : String)
    (username : Option String) : List UserRow :=
  match tbl.find? (fun u => decide (u.user_id = user_id)) with
  | some _ => tbl
  | none => tbl ++ [⟨user_id, first_name, username⟩]

/-- Number of rows of the users table holding a given `user_id`. -/
def countUser (tbl : List UserRow) (x : Int) : Nat :=
  (tbl.filter (fun u => decide (u.user_id = x))).length

/-- Membership in a fetch result implies membership in the table and dueness. -/
theorem mem_fetch_due {s : DelRow} {l : List DelRow} {t : Int} {k : Nat}
    (h : s ∈ db_fetch_due_deletions l t k) : s ∈ l ∧ s.delete_at ≤ t := by
  have h1 : s ∈ (l.filter (fun r => decide (r.delete_at ≤ t))).insertionSort rowIdLe :=
    List.mem_of_mem_take h
  have h2 : s ∈ l.filter (fun r => decide (r.delete_at ≤ t)) :=
    (List.perm_insertionSort rowIdLe _).mem_iff.mp h1
  have h3 := List.mem_filter.mp h2
  exact ⟨h3.1, of_decide_eq_true h3.2⟩

/-- C2: for every weekday in 0..6, hour in 0..23, minute in 0..59 and current
wall-clock time `now`, `_seconds_until_next_weekly` yields a strictly positive
wait whose endpoint falls on the requested weekday at the requested local time
of day, and when `now` is exactly at the target weekday and time of day the
wait is exactly 7 days, so the same instant never fires twice. -/
theorem seconds_until_next_weekly_correct (w h m now : Int)
    (hw : 0 ≤ w ∧ w < 7) (hh : 0 ≤ h ∧ h < 24) (hm : 0 ≤ m ∧ m < 60) :
    0 < _seconds_until_next_weekly w h m now
    ∧ pyWeekday (now + _seconds_until_next_weekly w h m now) = w
    ∧ (now + _seconds_until_next_weekly w h m now) % 86400 = h * 3600 + m * 60
    ∧ ((pyWeekday now = w ∧ now % 86400 = h * 3600 + m * 60) →
        _seconds_until_next_weekly w h m now = 7 * 86400) := by
  unfold _seconds_until_next_weekly pyWeekday
  simp only []
  split <;> omega

/-- Witness for C2 at Monday 1970-01-05 09:00:00 (wall-clock second 378000),
targeting Monday 09:00: the wait is exactly one week. -/
theorem seconds_until_next_weekly_correct_witness :
    0 < _seconds_until_next_weekly 0 9 0 378000
    ∧ pyWeekday (378000 + _seconds_until_next_weekly 0 9 0 378000) = 0
    ∧ (378000 + _seconds_until_next_weekly 0 9 0 378000) % 86400 = 9 * 3600 + 0 * 60
    ∧ _seconds_until_next_weekly 0 9 0 378000 = 7 * 86400 := by
  have h := seconds_until_next_weekly_correct 0 9 0 378000
    (by decide) (by decide) (by decide)
  exact ⟨h.1, h.2.1, h.2.2.1, h.2.2.2 (by decide)⟩

/-- C3: `db_fetch_due_deletions` returns only table entries whose `delete_at`
is at most `now_ts` (so never a not-yet-due entry), returns at most `limit`
entries, and returns them ordered by row id ascending. -/
theorem fetch_due_only_due_bounded_ordered (rows : List DelRow) (now_ts : Int)
    (limit : Nat) :
    (∀ r ∈ db_fetch_due_deletions rows now_ts limit, r ∈ rows ∧ r.delete_at ≤ now_ts)
    ∧ (db_fetch_due_deletions rows now_ts limit).length ≤ limit
    ∧ List.Pairwise rowIdLe (db_fetch_due_deletions rows now_ts limit) := by
  refine ⟨fun r hr => mem_fetch_due hr, List.length_take_le _ _, ?_⟩
  exact List.Pairwise.sublist (List.take_sublist _ _)
    (List.sorted_insertionSort rowIdLe _)

/-- Fixed sample table used by witnesses: three rows, two due at time 10. -/
def rowsA : List DelRow :=
  [⟨1, -100, 11, 5⟩, ⟨2, -100, 12, 50⟩, ⟨3, -100, 13, 7⟩]

/-- Witness for C3 on the sample table with limit 1. -/
theorem fetch_due_only_due_bounded_ordered_witness :
    (db_fetch_due_deletions rowsA 10 1).length ≤ 1 :=
  (fetch_due_only_due_bounded_ordered rowsA 10 1).2.1

/-- C4: removing a ledger row by id is idempotent, leaves the row absent, and
removing a non-existent row id is a no-op rather than an error. -/
theorem delete_row_idempotent_noop (rows : List DelRow) (row_id : Nat) :
    db_delete_deletion_row (db_delete_deletion_row rows row_id) row_id
      = db_delete_deletion_row rows row_id
    ∧ (∀ r ∈ db_delete_deletion_row rows row_id, r.id ≠ row_id)
    ∧ ((∀ r ∈ rows, r.id ≠ row_id) → db_delete_deletion_row rows row_id = rows) := by
  refine ⟨?_, ?_, ?_⟩
  · simp [db_delete_deletion_row, List.filter_filter]
  · intro r hr
    exact of_decide_eq_true (List.mem_filter.mp hr).2
  · intro hnone
    exact List.filter_eq_self.mpr (fun r hr => decide_eq_true (hnone r hr))

/-- Witness for C4: removing the absent id 9 from the sample table changes
nothing. -/
theorem delete_row_idempotent_noop_witness :
    db_delete_deletion_row rowsA 9 = rowsA :=
  (delete_row_idempotent_noop rowsA 9).2.2 (by decide)

/-- C10: `add_user_to_db` leaves the table unchanged (names included) when the
`user_id` is already present, appends exactly one row when it is absent, and
therefore preserves the at-most-one-row-per-`user_id` invariant under
sequential calls. -/
theorem add_user_unique_invariant (tbl : List UserRow) (uid : Int) (fn : String)
    (un : Option String) :
    ((∃ u ∈ tbl, u.user_id = uid) → add_user_to_db tbl uid fn un = tbl)
    ∧ ((∀ u ∈ tbl, u.user_id ≠ uid) →
        add_user_to_db tbl uid fn un = tbl ++ [⟨uid, fn, un⟩])
    ∧ (∀ x : Int, countUser tbl x ≤ 1 →
        countUser (add_user_to_db tbl uid fn un) x ≤ 1) := by
  refine ⟨?_, ?_, ?_⟩
  · rintro ⟨u, hu, hid⟩
    rcases hfind : tbl.find? (fun v => decide (v.user_id = uid)) with _ | v
    · exact absurd (decide_eq_true hid) (List.find?_eq_none.mp hfind u hu)
    · simp [add_user_to_db, hfind]
  · intro hnone
    rcases hfind : tbl.find? (fun v => decide (v.user_id = uid)) with _ | v
    · simp [add_user_to_db, hfind]
    · have hv' := List.find?_some hfind
      exact absurd (of_decide_eq_true hv')
        (hnone v (List.mem_of_find?_eq_some hfind))
  · intro x hx
    rcases hfind : tbl.find? (fun v => decide (v.user_id = uid)) with _ | v
    · have hnone := List.find?_eq_none.mp hfind
      by_cases hxu : x = uid
      · subst hxu
        have h0 : tbl.filter (fun u => decide (u.user_id = x)) = [] :=
          List.filter_eq_nil_iff.mpr (fun u hu => hnone u hu)
        simp [add_user_to_db, hfind, countUser, List.filter_append, h0]
      · simp only [add_user_to_db, hfind, countUser, List.filter_append,
          List.length_append] at hx ⊢
        have h1 : ([(⟨uid, fn, un⟩ : UserRow)].filter
            (fun u => decide (u.user_id = x))).length = 0 := by
          simp [Ne.symm hxu]
        omega
    · simpa [add_user_to_db, hfind] using hx

/-- Fixed sample users table. -/
def tblA : List UserRow := [⟨7, "alice", none⟩]

/-- Witness for C10: re-adding user 7 with different names leaves the table
unchanged. -/
theorem add_user_unique_invariant_witness :
    add_user_to_db tblA 7 "bob" (some "b") = tblA :=
  (add_user_unique_invariant tblA 7 "bob" (some "b")).1
    ⟨⟨7, "alice", none⟩, by decide, rfl⟩

/-- C1 counterexample: a delivery that succeeds with message id 1 (the code
counts it as sent, second component 1), but whose post-delivery
`_resolve_chat_id` call fails, inserts no ledger row at all — the claim's
"exactly one new row" is violated. -/
theorem autopost_enqueue_skipped_on_reresolve_failure :
    (autopost_channel_step (some 1) none 0 30 ⟨[], 1⟩).2 = 1
    ∧ ¬ ((autopost_channel_step (some 1) none 0 30 ⟨[], 1⟩).1.rows.length
          = ([] : List DelRow).length + 1) := by
  decide

/-- C1 (amended): when a delivery returns a nonzero message id and the
post-delivery channel re-resolution succeeds, exactly one new ledger row is
appended, carrying the resolved channel, that message id, and `due_at` equal
to the bookkeeping time plus the retention period (`retention_days` days of
86400 s); when the re-resolution fails the ledger is left unchanged. -/
theorem autopost_enqueue_exactly_one_when_resolved (m : Nat)
    (cid now_ts retention_days : Int) (st : LedgerState) (hm : m ≠ 0) :
    (autopost_channel_step (some m) (some cid) now_ts retention_days st).1.rows
      = st.rows ++ [⟨st.nextId, cid, m, now_ts + retention_days * 86400⟩]
    ∧ (autopost_channel_step (some m) none now_ts retention_days st).1 = st := by
  simp [autopost_channel_step, db_schedule_deletion, hm]

/-- Witness for the amended C1 with message id 5, channel -100, retention 30
days from time 1000. -/
theorem autopost_enqueue_exactly_one_when_resolved_witness :
    (autopost_channel_step (some 5) (some (-100)) 1000 30 ⟨[], 1⟩).1.rows
      = [] ++ [⟨1, -100, 5, 1000 + 30 * 86400⟩] :=
  (autopost_enqueue_exactly_one_when_resolved 5 (-100) 1000 30 ⟨[], 1⟩
    (by decide)).1

/-- Recognizer for retraction-attempt events of the reaper trace. -/
def isAttemptEvent : ReapEvent → Bool
  | .attempt _ _ _ => true
  | .removeRow _ => false

/-- The table component of the reaper fold ignores the event component and
the retraction outcomes. -/
theorem reap_foldl_fst (outcome : Nat → Bool) (due : List DelRow)
    (acc : List DelRow × List ReapEvent) :
    (due.foldl (reapStep outcome) acc).1
      = due.foldl (fun a r => db_delete_deletion_row a r.id) acc.1 := by
  induction due generalizing acc with
  | nil => rfl
  | cons r t ih => simpa [reapStep] using ih (reapStep outcome acc r)

/-- Membership in the folded table implies membership in the starting table. -/
theorem mem_reap_foldl_rows {due : List DelRow} {acc : List DelRow} {s : DelRow}
    (h : s ∈ due.foldl (fun a r => db_delete_deletion_row a r.id) acc) :
    s ∈ acc := by
  induction due generalizing acc with
  | nil => exact h
  | cons r t ih =>
    have h1 : s ∈ t.foldl (fun a r => db_delete_deletion_row a r.id)
        (db_delete_deletion_row acc r.id) := h
    exact (List.mem_filter.mp (ih h1)).1

/-- Every row id of the processed batch is absent from the folded table. -/
theorem reap_foldl_removes {due : List DelRow} {acc : List DelRow} {r : DelRow}
    (hr : r ∈ due) {s : DelRow}
    (hs : s ∈ due.foldl (fun a x => db_delete_deletion_row a x.id) acc) :
    s.id ≠ r.id := by
  induction due generalizing acc with
  | nil => cases hr
  | cons x t ih =>
    rcases List.mem_cons.mp hr with hx | hx
    · subst hx
      have h1 : s ∈ db_delete_deletion_row acc r.id := mem_reap_foldl_rows hs
      exact of_decide_eq_true (List.mem_filter.mp h1).2
    · exact ih hx hs

/-- The reaper trace holds one retraction attempt per processed row. -/
theorem reap_foldl_attempts (outcome : Nat → Bool) (due : List DelRow)
    (acc : List DelRow × List ReapEvent) :
    ((due.foldl (reapStep outcome) acc).2.filter isAttemptEvent).length
      = (acc.2.filter isAttemptEvent).length + due.length := by
  induction due generalizing acc with
  | nil => rfl
  | cons r t ih =>
    have h := ih (reapStep outcome acc r)
    rw [List.foldl_cons, h]
    simp [reapStep, List.filter_append, isAttemptEvent]
    omega

/-- C8: in one reaper poll, each fetched due row gives rise to exactly one
retraction attempt in total (one per row), its ledger row is removed no
matter whether the retraction succeeded, the resulting table does not depend
on the retraction outcomes at all, and no processed row id can ever be
returned by a later `db_fetch_due_deletions` poll on the resulting table. -/
theorem autodelete_one_attempt_then_remove (outcome : Nat → Bool)
    (rows : List DelRow) (now_ts : Int) :
    (((autodelete_iteration outcome rows now_ts).2.filter isAttemptEvent).length
        = (db_fetch_due_deletions rows now_ts 200).length)
    ∧ (∀ r ∈ db_fetch_due_deletions rows now_ts 200,
        ∀ s ∈ (autodelete_iteration outcome rows now_ts).1, s.id ≠ r.id)
    ∧ (∀ outcome2 : Nat → Bool,
        (autodelete_iteration outcome rows now_ts).1
          = (autodelete_iteration outcome2 rows now_ts).1)
    ∧ (∀ r ∈ db_fetch_due_deletions rows now_ts 200, ∀ later_ts : Int, ∀ lim : Nat,
        r.id ∉ ((db_fetch_due_deletions
          (autodelete_iteration outcome rows now_ts).1 later_ts lim).map DelRow.id)) := by
  refine ⟨?_, ?_, ?_, ?_⟩
  · simpa using reap_foldl_attempts outcome (db_fetch_due_deletions rows now_ts 200)
      (rows, [])
  · intro r hr s hs
    rw [autodelete_iteration, reap_foldl_fst] at hs
    exact reap_foldl_removes hr hs
  · intro outcome2
    rw [autodelete_iteration, autodelete_iteration, reap_foldl_fst, reap_foldl_fst]
  · intro r hr later_ts lim hmem
    rcases List.mem_map.mp hmem with ⟨s, hs, hsid⟩
    have h1 : s ∈ (autodelete_iteration outcome rows now_ts).1 := (mem_fetch_due hs).1
    rw [autodelete_iteration, reap_foldl_fst] at h1
    exact reap_foldl_removes hr h1 hsid

/-- Witness for C8 on the sample table with all retractions failing: two
attempts for the two due rows. -/
theorem autodelete_one_attempt_then_remove_witness :
    (((autodelete_iteration (fun _ => false) rowsA 10).2.filter isAttemptEvent).length
        = (db_fetch_due_deletions rowsA 10 200).length) :=
  (autodelete_one_attempt_then_remove (fun _ => false) rowsA 10).1

/-- Creating files never removes an existing path from the filesystem. -/
theorem mem_fsCreate {fs : List String} (ps : List String) {p : String}
    (h : p ∈ fs) : p ∈ fsCreate fs ps := by
  induction ps generalizing fs with
  | nil => exact h
  | cons q t ih =>
    show p ∈ fsCreate (if q ∈ fs then fs else fs ++ [q]) t
    split
    · exact ih h
    · exact ih (List.mem_append_left _ h)

/-- The two-step `finally` cleanup with second slot `some p`: whatever the
first slot holds, an existing nonempty path `p` ends up removed and absent. -/
theorem cleanup_removes_tracked (fs : List String) (copt : Option String)
    {p : String} (hp : p ≠ "") (hfs : p ∈ fs) :
    p ∈ (cleanupOne fs copt).2 ++ (cleanupOne (cleanupOne fs copt).1 (some p)).2
    ∧ p ∉ (cleanupOne (cleanupOne fs copt).1 (some p)).1 := by
  rcases copt with _ | q
  · simp [cleanupOne, hp, hfs, osRemove, List.mem_filter]
  · by_cases hq : q ≠ "" ∧ q ∈ fs
    · by_cases hpq : p = q
      · subst hpq
        simp [cleanupOne, hp, hfs, osRemove, List.mem_filter]
      · have hpmem : p ∈ osRemove fs q := by
          simp [osRemove, List.mem_filter, hfs, hpq]
        simp [cleanupOne, hq, hp, hpmem, osRemove, List.mem_filter, hfs, hpq]
    · simp only [cleanupOne, if_neg hq]
      simp [cleanupOne, hp, hfs, osRemove, List.mem_filter]

/-- C5: whatever the channel reference, content item and initial filesystem,
if the client's send call raises (any of the caught exception classes), the
delivery returns `None` — the function is total, so the exception never
reaches the caller — and at most one dispatch call is ever made (no retry
within the call). -/
theorem send_autopost_error_returns_none_no_retry (env : Env) (ref : ChatRef)
    (post : PostCfg) (fs0 : List String) (e : SendErr)
    (hs : env.send = .error e) :
    (_send_autopost_to_chat env ref post fs0).messageId = none
    ∧ (_send_autopost_to_chat env ref post fs0).sendCalls ≤ 1 := by
  rcases hres : (_resolve_chat_id env ref).1 with _ | cid
  · simp [_send_autopost_to_chat, hres]
  · by_cases hk : pyLower (pyOrStr post.ptype "text") ∈ mediaKinds
    · rcases hdl : (_download_if_url post.media env.dl).1 with _ | mp
      · simp [_send_autopost_to_chat, hres, hk, hdl]
      · simp [_send_autopost_to_chat, hres, hk, hdl, dispatch, hs]
    · simp [_send_autopost_to_chat, hres, hk, dispatch, hs]

/-- Environment for the C5 witness: a text post whose send raises `RPCError`. -/
def c5env : Env :=
  ⟨fun _ => some (-1001), Download.fetchErr, ImgConv.keep, VidConv.noFfmpeg,
    Except.error SendErr.rpcError⟩

/-- Text-only post used by the C5 witness. -/
def c5post : PostCfg := ⟨some "text", none, some "hello", []⟩

/-- Witness for C5: the concrete failing send returns `None` with one dispatch. -/
theorem send_autopost_error_returns_none_no_retry_witness :
    (_send_autopost_to_chat c5env (ChatRef.byId (-1001)) c5post []).messageId = none
    ∧ (_send_autopost_to_chat c5env (ChatRef.byId (-1001)) c5post []).sendCalls ≤ 1 :=
  send_autopost_error_returns_none_no_retry c5env (ChatRef.byId (-1001)) c5post []
    SendErr.rpcError rfl

/-- Environment for the C6 failing input: the URL download writes a 500-byte
body (under the 1024-byte threshold) to the `mkstemp` file. -/
def c6env : Env :=
  ⟨fun _ => some (-1001), Download.fetched "/tmp/ap_dl_x.jpg" 500,
    ImgConv.keep, VidConv.noFfmpeg, Except.ok 7⟩

/-- Photo post with a remote URL used by the C6 failing input. -/
def c6post : PostCfg :=
  ⟨some "photo", some "http://example.com/pic.jpg", some "hey", []⟩

/-- C6 at the failing input: when the downloaded body is under 1024 bytes,
`_download_if_url` returns `None` after creating the temporary file, the
delivery aborts, and the cleanup removes nothing — the temporary file created
during the attempt is still on disk when the function returns. -/
theorem send_autopost_small_download_leaks_tempfile :
    (_send_autopost_to_chat c6env (ChatRef.byId (-1001)) c6post []).messageId = none
    ∧ "/tmp/ap_dl_x.jpg"
        ∈ (_send_autopost_to_chat c6env (ChatRef.byId (-1001)) c6post []).created
    ∧ (_send_autopost_to_chat c6env (ChatRef.byId (-1001)) c6post []).removed = []
    ∧ "/tmp/ap_dl_x.jpg"
        ∈ (_send_autopost_to_chat c6env (ChatRef.byId (-1001)) c6post []).fs := by
  decide

/-- C7 (amended): when the post kind requires media and the media fetch
returns `None`, the delivery returns `None` and no send/dispatch operation of
the channel client is invoked. (The `get_chat` resolution call may already
have hit the client — see the counterexample.) -/
theorem media_fetch_null_no_dispatch (env : Env) (ref : ChatRef)
    (post : PostCfg) (fs0 : List String)
    (hk : pyLower (pyOrStr post.ptype "text") ∈ mediaKinds)
    (hdl : (_download_if_url post.media env.dl).1 = none) :
    (_send_autopost_to_chat env ref post fs0).messageId = none
    ∧ (_send_autopost_to_chat env ref post fs0).sendCalls = 0 := by
  rcases hres : (_resolve_chat_id env ref).1 with _ | cid
  · simp [_send_autopost_to_chat, hres]
  · simp [_send_autopost_to_chat, hres, hk, hdl]

/-- Environment for C7's concrete instances: the download always fails. -/
def c7env : Env :=
  ⟨fun _ => some (-1001), Download.fetchErr, ImgConv.keep, VidConv.noFfmpeg,
    Except.ok 5⟩

/-- Photo post with a remote URL used by C7's concrete instances. -/
def c7post : PostCfg := ⟨some "photo", some "http://example.com/a.jpg", none, []⟩

/-- C7 counterexample: delivering to the symbolic reference `@chan` with a
failing media fetch returns `None`, yet the channel client has been called
(once, by `get_chat` during resolution) — "the channel client is never
called" is false as stated. -/
theorem media_fetch_null_client_still_called :
    (_download_if_url c7post.media c7env.dl).1 = none
    ∧ (_send_autopost_to_chat c7env (ChatRef.byName "@chan") c7post []).messageId = none
    ∧ ¬ ((_send_autopost_to_chat c7env (ChatRef.byName "@chan") c7post []).getChatCalls
          + (_send_autopost_to_chat c7env (ChatRef.byName "@chan") c7post []).sendCalls
          = 0) := by
  decide

/-- Witness for the amended C7 with a numeric channel reference. -/
theorem media_fetch_null_no_dispatch_witness :
    (_send_autopost_to_chat c7env (ChatRef.byId (-1001)) c7post []).messageId = none
    ∧ (_send_autopost_to_chat c7env (ChatRef.byId (-1001)) c7post []).sendCalls = 0 :=
  media_fetch_null_no_dispatch c7env (ChatRef.byId (-1001)) c7post []
    (by decide) (by decide)

/-- C9 (amended): when the channel reference resolves, the post kind requires
media, and the media reference is a pre-existing nonempty local absolute path
(not an HTTP URL), the delivery removes that original file from disk before
returning — whatever the conversion outcome and whether the send succeeds or
raises. -/
theorem local_abs_media_deleted_when_resolved (env : Env) (ref : ChatRef)
    (post : PostCfg) (fs0 : List String) (path : String) (cid : Int)
    (hres : (_resolve_chat_id env ref).1 = some cid)
    (hk : pyLower (pyOrStr post.ptype "text") ∈ mediaKinds)
    (hmedia : post.media = some path)
    (hne : path ≠ "")
    (hurl : isHttpUrl path = false)
    (habs : pyIsAbs path = true)
    (hfs : path ∈ fs0) :
    path ∈ (_send_autopost_to_chat env ref post fs0).removed
    ∧ path ∉ (_send_autopost_to_chat env ref post fs0).fs := by
  have hdl : _download_if_url post.media env.dl = (some path, []) := by
    rw [hmedia]
    simp [_download_if_url, hne, hurl]
  unfold _send_autopost_to_chat
  simp only [hres, hdl, habs, hk, if_true]
  exact cleanup_removes_tracked _ _ hne (mem_fsCreate _ hfs)

/-- Environment for the C9 counterexample: the `get_chat` lookup fails. -/
def c9env : Env :=
  ⟨fun _ => none, Download.fetchErr, ImgConv.keep, VidConv.noFfmpeg, Except.ok 5⟩

/-- Photo post whose media is a local absolute path, for C9. -/
def c9post : PostCfg := ⟨some "photo", some "/home/u/pic.jpg", none, []⟩

/-- C9 counterexample: with an unresolvable channel reference the delivery is
a failure path on which the caller's absolute-path media file is NOT deleted,
so "deleted on both success and failure paths" is false as stated. -/
theorem local_abs_media_survives_when_unresolved :
    pyIsAbs "/home/u/pic.jpg" = true
    ∧ isHttpUrl "/home/u/pic.jpg" = false
    ∧ (_send_autopost_to_chat c9env (ChatRef.byName "@gone") c9post
        ["/home/u/pic.jpg"]).removed = []
    ∧ "/home/u/pic.jpg" ∈ (_send_autopost_to_chat c9env (ChatRef.byName "@gone") c9post
        ["/home/u/pic.jpg"]).fs := by
  decide

/-- Environment for the C9 witness: resolution succeeds and the send raises
`BadRequest`, exercising a failure path that still deletes the source file. -/
def c9benv : Env :=
  ⟨fun _ => some (-1001), Download.fetchErr, ImgConv.keep, VidConv.noFfmpeg,
    Except.error SendErr.badRequest⟩

/-- Witness for the amended C9: the pre-existing local file is gone even
though the send itself failed. -/
theorem local_abs_media_deleted_when_resolved_witness :
    "/home/u/pic.jpg" ∈ (_send_autopost_to_chat c9benv (ChatRef.byId (-1001)) c9post
        ["/home/u/pic.jpg"]).removed
    ∧ "/home/u/pic.jpg" ∉ (_send_autopost_to_chat c9benv (ChatRef.byId (-1001)) c9post
        ["/home/u/pic.jpg"]).fs :=
  local_abs_media_deleted_when_resolved c9benv (ChatRef.byId (-1001)) c9post
    ["/home/u/pic.jpg"] "/home/u/pic.jpg" (-1001) rfl (by decide) rfl
    (by decide) (by decide) (by decide) (by decide)
